import Mathlib

/-!
Verification development for the horusid bus-schedule tool (`src/index.js`).

The embedding models:
* the JS numeric-string parsers `parseFloat` / `parseInt` (restricted to the
  decimal-literal forms the data uses; `Infinity` literals are not modelled),
  with JS `NaN` represented by `JSNum.nan` and finite values by exact rationals;
* the recurrence calculator `generateFutureDates`, with calendar dates modelled
  as absolute day indices (day 0 a Sunday, so a date's JS `getDay()` is its
  index mod 7; JS `setDate` day arithmetic is plain addition on day indices);
* the trip normalizer `processAndFilterTrips`, with JS dynamic values modelled
  by `Option` fields (`none` = absent/undefined/non-array) and the unguarded
  `trip.pricing.total` read modelled as an explicit `typeError` outcome;
* the decision logic of `promptUserForTripSelection` on a single answer string.
-/

/-- A JS number as produced by `parseFloat`: either NaN or an exact rational. -/
inductive JSNum where
  | nan : JSNum
  | num (q : ℚ) : JSNum
deriving DecidableEq, Repr

/-- Accumulate a maximal run of leading decimal digits: returns the value so
far, the number of digits consumed, and the rest of the characters. -/
def takeDigitsAux : List Char → Nat → Nat → Nat × Nat × List Char
  | [], acc, n => (acc, n, [])
  | c :: cs, acc, n =>
    if c.isDigit then takeDigitsAux cs (acc * 10 + (c.toNat - 48)) (n + 1)
    else (acc, n, c :: cs)

/-- Read an optional leading sign, as in JS numeric parsing. -/
def readSign : List Char → Int × List Char
  | '-' :: cs => (-1, cs)
  | '+' :: cs => (1, cs)
  | cs => (1, cs)

/-- Read a trailing exponent part `e`/`E` sign digits; an exponent marker with
no digits contributes nothing (JS parses the longest valid literal prefix). -/
def readExponent : List Char → Int
  | [] => 0
  | c :: cs =>
    if c = 'e' ∨ c = 'E' then
      let sr := readSign cs
      let dr := takeDigitsAux sr.2 0 0
      if dr.2.1 = 0 then 0 else sr.1 * dr.1
    else 0

/-- JS `parseFloat` on a character list: optional whitespace, optional sign,
digits, optional fraction, optional exponent; NaN when no digits occur before
the exponent part. -/
def jsParseFloatChars (cs0 : List Char) : JSNum :=
  let cs1 := cs0.dropWhile Char.isWhitespace
  let sr := readSign cs1
  let ir := takeDigitsAux sr.2 0 0
  let fr : Nat × Nat × List Char :=
    match ir.2.2 with
    | '.' :: rest => takeDigitsAux rest 0 0
    | _ => (0, 0, ir.2.2)
  if ir.2.1 = 0 ∧ fr.2.1 = 0 then JSNum.nan
  else
    let e := readExponent fr.2.2
    let mant : Int := sr.1 * (ir.1 * 10 ^ fr.2.1 + fr.1)
    let scale : Int := e - fr.2.1
    JSNum.num (if 0 ≤ scale then mkRat (mant * 10 ^ scale.toNat) 1
               else mkRat mant (10 ^ (-scale).toNat))

/-- JS `parseFloat` applied to a possibly-undefined string field
(`parseFloat(undefined)` is NaN). -/
def jsParseFloat : Option String → JSNum
  | none => JSNum.nan
  | some s => jsParseFloatChars s.data

/-- JS `parseInt(s, 10)`: optional whitespace, optional sign, maximal run of
decimal digits; `none` models NaN (no digits at all). -/
def jsParseInt (s : String) : Option Int :=
  let cs := s.data.dropWhile Char.isWhitespace
  let sr := readSign cs
  let dr := takeDigitsAux sr.2 0 0
  if dr.2.1 = 0 then none else some (sr.1 * dr.1)

/-- The `dayNameMapping` table of `src/index.js`: the seven recognized
Portuguese weekday labels, mapped to JS `getDay()` ordinals (0 = Sunday). -/
def dayNameMapping (s : String) : Option Nat :=
  if s = "Domingo" then some 0
  else if s = "Segunda-feira" then some 1
  else if s = "Terça-feira" then some 2
  else if s = "Quarta-feira" then some 3
  else if s = "Quinta-feira" then some 4
  else if s = "Sexta-feira" then some 5
  else if s = "Sábado" then some 6
  else none

/-- The seven recognized weekday labels (the keys of `dayNameMapping`). -/
def weekdayLabels : List String :=
  ["Domingo", "Segunda-feira", "Terça-feira", "Quarta-feira",
   "Quinta-feira", "Sexta-feira", "Sábado"]

/-- The loop of `generateFutureDates`: starting from day index `start`, push
`count` dates, stepping by 7 days each iteration (JS `setDate` arithmetic is
plain addition on absolute day indices). -/
def collectDates : Nat → Nat → List Nat
  | 0, _ => []
  | Nat.succ k, start => start :: collectDates k (start + 7)

/-- Result of `generateFutureDates`: the returned date list plus whether the
`console.error` branch for an invalid day name was taken. -/
structure GenResult where
  errorLogged : Bool
  dates : List Nat
deriving DecidableEq, Repr

/-- `generateFutureDates(targetDayName, count)` from `src/index.js`, with the
current date injected as an absolute day index `today` (day 0 a Sunday, so
`getDay()` of `today` is `today % 7`, and a date falls on weekday `w` exactly
when its index is `w` mod 7). The JS offset `(target - getDay + 7) % 7` is the
same integer as `(target + 7 - getDay) % 7`, written in `Nat`. Dates are
modelled as day indices; `formatDateToString` renders each day injectively. -/
def generateFutureDates (targetDayName : String) (count : Nat) (today : Nat) :
    GenResult :=
  match dayNameMapping targetDayName with
  | none => { errorLogged := true, dates := [] }
  | some targetDayNumber =>
      let daysUntilTarget := (targetDayNumber + 7 - today % 7) % 7
      { errorLogged := false, dates := collectDates count (today + daysUntilTarget) }

/-- One element of a trip's `passenger_types` array; `total` is a numeric
string that may be absent (`undefined`). -/
structure PassengerType where
  type : String
  total : Option String
  availability : Int
deriving DecidableEq, Repr

/-- A raw trip from the intercepted payload. `pricing` is `none` when the trip
has no `pricing` object (reading `.total` from it is a TypeError);
`passenger_types` is `none` when the field is missing or not an array. -/
structure RawTrip where
  service : String
  pricing : Option ℚ
  departure : Option String
  arrival : Option String
  passenger_types : Option (List PassengerType)
deriving DecidableEq, Repr

/-- A discount sub-record of a canonical trip (price, availability, label). -/
structure TierInfo where
  price : JSNum
  availability : Int
  type : String
deriving DecidableEq, Repr

/-- A canonical trip as pushed by `processAndFilterTrips`. -/
structure CanonicalTrip where
  date : Option String
  serviceType : String
  departureTimestamp : Option String
  arrivalTimestamp : Option String
  price : JSNum
  freePassInfo : Option TierInfo
  disadvantagedYouthInfo : Option TierInfo
  disadvantagedYouthHalfInfo : Option TierInfo
deriving DecidableEq, Repr

/-- Body of the `forEach` in `processAndFilterTrips` for one trip that already
passed the `service === "CONVENCIONAL"` test and whose `pricing.total` read
succeeded (yielding `pricingTotal`). Each `find` is JS `Array.prototype.find`
(first matching element). -/
def normalizeConvTrip (searchDate : Option String) (trip : RawTrip)
    (pricingTotal : ℚ) : CanonicalTrip :=
  let generalPrice : JSNum :=
    match trip.passenger_types with
    | some l =>
      match l.find? (fun pt => pt.type == "general") with
      | some pt =>
        match pt.total with
        | some s => jsParseFloat (some s)
        | none => JSNum.num pricingTotal
      | none => JSNum.num pricingTotal
    | none => JSNum.num pricingTotal
  let freePassDetails : Option TierInfo :=
    match trip.passenger_types with
    | some l =>
      (l.find? (fun pt =>
          pt.type == "free_pass" && decide (jsParseFloat pt.total = JSNum.num 0))).map
        (fun pt => ⟨JSNum.num 0, pt.availability, "Gratuidade (Idoso/PCD)"⟩)
    | none => none
  let disadvantagedYouthDetails : Option TierInfo :=
    match trip.passenger_types with
    | some l =>
      (l.find? (fun pt => pt.type == "disadvantaged_youth")).map
        (fun pt => ⟨jsParseFloat pt.total, pt.availability, "Jovem Baixa Renda 100%"⟩)
    | none => none
  let disadvantagedYouthHalfDetails : Option TierInfo :=
    match trip.passenger_types with
    | some l =>
      (l.find? (fun pt => pt.type == "disadvantaged_youth_half")).map
        (fun pt => ⟨jsParseFloat pt.total, pt.availability, "Jovem Baixa Renda 50%"⟩)
    | none => none
  { date := searchDate
    serviceType := trip.service
    departureTimestamp := trip.departure
    arrivalTimestamp := trip.arrival
    price := generalPrice
    freePassInfo := freePassDetails
    disadvantagedYouthInfo := disadvantagedYouthDetails
    disadvantagedYouthHalfInfo := disadvantagedYouthHalfDetails }

/-- The `forEach` of `processAndFilterTrips` over the `trips` array: skip
non-`CONVENCIONAL` trips; on a `CONVENCIONAL` trip the unguarded read
`trip.pricing.total` throws (`.error ()`) when `pricing` is absent, which
aborts the whole traversal. -/
def processTripsList (searchDate : Option String) :
    List RawTrip → Except Unit (List CanonicalTrip)
  | [] => Except.ok []
  | t :: ts =>
    if t.service == "CONVENCIONAL" then
      match t.pricing with
      | none => Except.error ()
      | some pr =>
        match processTripsList searchDate ts with
        | Except.ok rest => Except.ok (normalizeConvTrip searchDate t pr :: rest)
        | Except.error e => Except.error e
    else processTripsList searchDate ts

/-- The argument of `processAndFilterTrips`: `nullish` models `null`/
`undefined`, `nonObject` a non-object value, and `obj departs trips` an object
whose `trips` field is `none` when missing, falsy, or not an array. -/
inductive JSInput where
  | nullish : JSInput
  | nonObject : JSInput
  | obj (departs : Option String) (trips : Option (List RawTrip)) : JSInput

/-- Observable outcome of `processAndFilterTrips`: `warned out` is a return
from one of the two `console.warn` guard branches, `ok out` a normal return,
`typeError` an uncaught TypeError from `trip.pricing.total`. -/
inductive ProcOutcome where
  | warned (out : List CanonicalTrip) : ProcOutcome
  | ok (out : List CanonicalTrip) : ProcOutcome
  | typeError : ProcOutcome
deriving DecidableEq, Repr

/-- `processAndFilterTrips(jsonData)` from `src/index.js`. -/
def processAndFilterTrips : JSInput → ProcOutcome
  | JSInput.nullish => ProcOutcome.warned []
  | JSInput.nonObject => ProcOutcome.warned []
  | JSInput.obj _ none => ProcOutcome.warned []
  | JSInput.obj departs (some ts) =>
    match processTripsList departs ts with
    | Except.ok out => ProcOutcome.ok out
    | Except.error _ => ProcOutcome.typeError

/-- Decision logic of `promptUserForTripSelection` on one answer string:
`rejected` models `reject(new Error(...))`, `exitClean` is `resolve(null)`,
`selected i` is `resolve(tripOptions[i])`, and `unsettled` is the fall-through
where the callback neither resolves nor rejects. -/
inductive PromptOutcome where
  | rejected : PromptOutcome
  | exitClean : PromptOutcome
  | selected (idx : Nat) : PromptOutcome
  | unsettled : PromptOutcome
deriving DecidableEq, Repr

/-- The `rl.question` callback of `promptUserForTripSelection`:
`parseInt(answer, 10)`, then NaN → reject; 0 → resolve null; in range
1..numOptions → resolve that option; anything else falls through with no
`resolve` and no `reject`. -/
def promptDecision (numOptions : Nat) (answer : String) : PromptOutcome :=
  match jsParseInt answer with
  | none => PromptOutcome.rejected
  | some choice =>
    if choice = 0 then PromptOutcome.exitClean
    else if 0 < choice ∧ choice ≤ (numOptions : Int) then
      PromptOutcome.selected (choice - 1).toNat
    else PromptOutcome.unsettled

/-- The canonical trips produced by a successful traversal: the
`CONVENCIONAL` trips, in order, each normalized with its pricing total. -/
def convCanonicals (searchDate : Option String) (ts : List RawTrip) :
    List CanonicalTrip :=
  ts.filterMap (fun t =>
    if t.service == "CONVENCIONAL" then
      t.pricing.map (fun pr => normalizeConvTrip searchDate t pr)
    else none)

/-- A CONVENCIONAL trip whose only passenger tier is a zero-total free pass. -/
def exFreeTrip : RawTrip :=
  { service := "CONVENCIONAL", pricing := some 80
    departure := some "2025-01-02T08:00:00", arrival := some "2025-01-02T18:00:00"
    passenger_types := some [⟨"free_pass", some "0.00", 5⟩] }

/-- A CONVENCIONAL trip with a free-pass tier whose total is non-zero. -/
def exNonZeroFreeTrip : RawTrip :=
  { service := "CONVENCIONAL", pricing := some 80
    departure := some "2025-01-02T08:00:00", arrival := some "2025-01-02T18:00:00"
    passenger_types := some [⟨"free_pass", some "12.50", 5⟩] }

/-- A CONVENCIONAL trip with a "general" tier totalling "75.00". -/
def exGeneralTrip : RawTrip :=
  { service := "CONVENCIONAL", pricing := some 80
    departure := some "2025-01-02T08:00:00", arrival := some "2025-01-02T18:00:00"
    passenger_types := some [⟨"general", some "75.00", 10⟩] }

/-- A trip of a non-conventional service class. -/
def exExpressTrip : RawTrip :=
  { service := "EXECUTIVO", pricing := some 120
    departure := some "2025-01-02T09:00:00", arrival := some "2025-01-02T17:00:00"
    passenger_types := some [⟨"general", some "120.00", 10⟩] }

/-- A CONVENCIONAL trip with both youth-discount tiers. -/
def exYouthTrip : RawTrip :=
  { service := "CONVENCIONAL", pricing := some 80
    departure := some "2025-01-02T08:00:00", arrival := some "2025-01-02T18:00:00"
    passenger_types := some [⟨"disadvantaged_youth", some "0.00", 2⟩,
                             ⟨"disadvantaged_youth_half", some "40.00", 3⟩] }

/-- A CONVENCIONAL trip with no `pricing` object. -/
def exNoPricingTrip : RawTrip :=
  { service := "CONVENCIONAL", pricing := none
    departure := none, arrival := none, passenger_types := none }

/-- A CONVENCIONAL trip whose `passenger_types` field is missing. -/
def exNoTiersTrip : RawTrip :=
  { service := "CONVENCIONAL", pricing := some 80
    departure := some "2025-01-02T08:00:00", arrival := some "2025-01-02T18:00:00"
    passenger_types := none }

example : jsParseFloat (some "0.00") = JSNum.num 0 := by decide
example : jsParseFloat (some "12.50") = JSNum.num (mkRat 25 2) := by decide
example : jsParseFloat (some "75.00") = JSNum.num 75 := by decide
example : jsParseFloat (some "-0") = JSNum.num 0 := by decide
example : jsParseFloat (some "1e2") = JSNum.num 100 := by decide
example : jsParseFloat (some "abc") = JSNum.nan := by decide
example : jsParseFloat none = JSNum.nan := by decide
example : jsParseInt "5" = some 5 := by decide
example : jsParseInt "-1" = some (-1) := by decide
example : jsParseInt "abc" = none := by decide
example : (generateFutureDates "Quinta-feira" 4 9).dates = [11, 18, 25, 32] := by decide
example : (generateFutureDates "Domingo" 2 14).dates = [14, 21] := by decide
example : (generateFutureDates "Monday" 4 9) = ⟨true, []⟩ := by decide
example : promptDecision 4 "2" = PromptOutcome.selected 1 := by decide
example : promptDecision 4 "0" = PromptOutcome.exitClean := by decide
example : promptDecision 4 "abc" = PromptOutcome.rejected := by decide
example : promptDecision 4 "5" = PromptOutcome.unsettled := by decide

lemma normalizeConvTrip_serviceType (d : Option String) (t : RawTrip) (pr : ℚ) :
    (normalizeConvTrip d t pr).serviceType = t.service := rfl

lemma collectDates_length (c s : Nat) : (collectDates c s).length = c := by
  induction c generalizing s with
  | zero => rfl
  | succ k ih => simp [collectDates, ih]

lemma collectDates_getElem? (c s i : Nat) :
    (collectDates c s)[i]? = if i < c then some (s + 7 * i) else none := by
  induction c generalizing s i with
  | zero => simp [collectDates]
  | succ k ih =>
    cases i with
    | zero => simp [collectDates]
    | succ j =>
      simp only [collectDates, List.getElem?_cons_succ, ih]
      by_cases hj : j < k
      · have hj' : j + 1 < k + 1 := by omega
        simp only [hj, hj', if_true, Option.some.injEq]
        omega
      · have hj' : ¬ (j + 1 < k + 1) := by omega
        simp [hj, hj']

lemma mem_collectDates (c s d : Nat) :
    d ∈ collectDates c s ↔ ∃ i, i < c ∧ d = s + 7 * i := by
  induction c generalizing s with
  | zero => simp [collectDates]
  | succ k ih =>
    simp only [collectDates, List.mem_cons, ih]
    constructor
    · rintro (rfl | ⟨i, hi, rfl⟩)
      · exact ⟨0, by omega, by omega⟩
      · exact ⟨i + 1, by omega, by omega⟩
    · rintro ⟨i, hi, rfl⟩
      cases i with
      | zero => left; omega
      | succ j => right; exact ⟨j, by omega, by omega⟩

lemma dayNameMapping_lt_seven (name : String) (w : Nat)
    (h : dayNameMapping name = some w) : w < 7 := by
  unfold dayNameMapping at h
  split_ifs at h <;> (injection h with h; omega)

lemma dayNameMapping_eq_none (name : String) (h : name ∉ weekdayLabels) :
    dayNameMapping name = none := by
  simp only [weekdayLabels, List.mem_cons, List.not_mem_nil, or_false, not_or] at h
  obtain ⟨h1, h2, h3, h4, h5, h6, h7⟩ := h
  simp [dayNameMapping, h1, h2, h3, h4, h5, h6, h7]

lemma processTripsList_ok (d : Option String) (ts : List RawTrip)
    (out : List CanonicalTrip) (h : processTripsList d ts = Except.ok out) :
    out = convCanonicals d ts := by
  induction ts generalizing out with
  | nil =>
    simp only [processTripsList, Except.ok.injEq] at h
    simp [convCanonicals, ← h]
  | cons t ts ih =>
    by_cases hs : t.service == "CONVENCIONAL"
    · have hs' : t.service = "CONVENCIONAL" := by simpa using hs
      cases hp : t.pricing with
      | none => simp [processTripsList, hs, hp] at h
      | some pr =>
        cases hrec : processTripsList d ts with
        | ok rest =>
          simp only [processTripsList, hs, if_true, hp, hrec, Except.ok.injEq] at h
          have hcons : convCanonicals d (t :: ts) =
              normalizeConvTrip d t pr :: convCanonicals d ts := by
            simp [convCanonicals, List.filterMap_cons, hs', hp]
          rw [← h, hcons, ih rest hrec]
        | error e => simp [processTripsList, hs, hp, hrec] at h
    · have hs' : ¬ t.service = "CONVENCIONAL" := by simpa using hs
      simp only [processTripsList, hs, Bool.false_eq_true, if_false] at h
      have hcons : convCanonicals d (t :: ts) = convCanonicals d ts := by
        simp [convCanonicals, List.filterMap_cons, hs']
      rw [hcons, ih out h]

lemma processTripsList_filter (d : Option String) (ts : List RawTrip) :
    processTripsList d (ts.filter (fun t => t.service == "CONVENCIONAL")) =
      processTripsList d ts := by
  induction ts with
  | nil => rfl
  | cons t ts ih =>
    by_cases hs : t.service == "CONVENCIONAL"
    · simp [List.filter_cons, hs, processTripsList, ih]
    · simp [List.filter_cons, hs, processTripsList, ih]

lemma processTripsList_error (d : Option String) (ts : List RawTrip)
    (h : processTripsList d ts = Except.error ()) :
    ∃ t ∈ ts, t.service = "CONVENCIONAL" ∧ t.pricing = none := by
  induction ts with
  | nil => simp [processTripsList] at h
  | cons t ts ih =>
    by_cases hs : t.service == "CONVENCIONAL"
    · cases hp : t.pricing with
      | none => exact ⟨t, List.mem_cons_self t ts, by simpa using hs, hp⟩
      | some pr =>
        cases hrec : processTripsList d ts with
        | ok rest => simp [processTripsList, hs, hp, hrec] at h
        | error e =>
          obtain ⟨u, hu, h1, h2⟩ := ih (by cases e; exact hrec)
          exact ⟨u, List.mem_cons_of_mem t hu, h1, h2⟩
    · simp only [processTripsList, hs, Bool.false_eq_true, if_false] at h
      obtain ⟨u, hu, h1, h2⟩ := ih h
      exact ⟨u, List.mem_cons_of_mem t hu, h1, h2⟩

lemma mem_convCanonicals_of (d : Option String) (t : RawTrip) (pr : ℚ)
    (ts : List RawTrip) (ht : t ∈ ts) (hs : t.service = "CONVENCIONAL")
    (hp : t.pricing = some pr) :
    normalizeConvTrip d t pr ∈ convCanonicals d ts :=
  List.mem_filterMap.mpr ⟨t, ht, by simp [hs, hp]⟩

lemma convCanonicals_serviceType (d : Option String) (ts : List RawTrip)
    (c : CanonicalTrip) (hc : c ∈ convCanonicals d ts) :
    c.serviceType = "CONVENCIONAL" := by
  obtain ⟨t, _, hft⟩ := List.mem_filterMap.mp hc
  by_cases hs : t.service == "CONVENCIONAL"
  · cases hp : t.pricing with
    | none => simp [hs, hp] at hft
    | some pr =>
      simp only [hs, if_true, hp, Option.map_some', Option.some.injEq] at hft
      rw [← hft, normalizeConvTrip_serviceType]
      simpa using hs
  · simp [hs] at hft

lemma processAndFilterTrips_ok (d : Option String) (ts : List RawTrip)
    (out : List CanonicalTrip)
    (h : processAndFilterTrips (JSInput.obj d (some ts)) = ProcOutcome.ok out) :
    out = convCanonicals d ts := by
  cases hrec : processTripsList d ts with
  | ok o =>
    simp only [processAndFilterTrips, hrec, ProcOutcome.ok.injEq] at h
    rw [← h]
    exact processTripsList_ok d ts o hrec
  | error e => simp [processAndFilterTrips, hrec] at h

lemma freePassInfo_isSome_iff (d : Option String) (t : RawTrip) (pr : ℚ) :
    (normalizeConvTrip d t pr).freePassInfo.isSome ↔
      ∃ l, t.passenger_types = some l ∧
        ∃ pt ∈ l, pt.type = "free_pass" ∧ jsParseFloat pt.total = JSNum.num 0 := by
  cases hpt : t.passenger_types with
  | none => simp [normalizeConvTrip, hpt]
  | some l =>
    simp [normalizeConvTrip, hpt, Option.isSome_map, List.find?_isSome,
      Bool.and_eq_true, beq_iff_eq, decide_eq_true_eq]

lemma disadvantagedYouthInfo_isSome_iff (d : Option String) (t : RawTrip) (pr : ℚ) :
    (normalizeConvTrip d t pr).disadvantagedYouthInfo.isSome ↔
      ∃ l, t.passenger_types = some l ∧ ∃ pt ∈ l, pt.type = "disadvantaged_youth" := by
  cases hpt : t.passenger_types with
  | none => simp [normalizeConvTrip, hpt]
  | some l =>
    simp [normalizeConvTrip, hpt, Option.isSome_map, List.find?_isSome, beq_iff_eq]

lemma disadvantagedYouthHalfInfo_isSome_iff (d : Option String) (t : RawTrip) (pr : ℚ) :
    (normalizeConvTrip d t pr).disadvantagedYouthHalfInfo.isSome ↔
      ∃ l, t.passenger_types = some l ∧ ∃ pt ∈ l, pt.type = "disadvantaged_youth_half" := by
  cases hpt : t.passenger_types with
  | none => simp [normalizeConvTrip, hpt]
  | some l =>
    simp [normalizeConvTrip, hpt, Option.isSome_map, List.find?_isSome, beq_iff_eq]

lemma freePassInfo_price (d : Option String) (t : RawTrip) (pr : ℚ)
    (info : TierInfo) (h : (normalizeConvTrip d t pr).freePassInfo = some info) :
    info.price = JSNum.num 0 := by
  cases hpt : t.passenger_types with
  | none => simp [normalizeConvTrip, hpt] at h
  | some l =>
    simp only [normalizeConvTrip, hpt, Option.map_eq_some'] at h
    obtain ⟨pt, _, hinfo⟩ := h
    simp [← hinfo]

lemma price_eq_general (d : Option String) (t : RawTrip) (pr : ℚ)
    (l : List PassengerType) (pt : PassengerType) (s : String)
    (hpt : t.passenger_types = some l)
    (hf : l.find? (fun p => p.type == "general") = some pt)
    (ht : pt.total = some s) :
    (normalizeConvTrip d t pr).price = jsParseFloat (some s) := by
  simp [normalizeConvTrip, hpt, hf, ht]

lemma price_eq_pricing (d : Option String) (t : RawTrip) (pr : ℚ)
    (h : ¬ ∃ l, t.passenger_types = some l ∧
      ∃ pt ∈ l, pt.type = "general" ∧ pt.total ≠ none) :
    (normalizeConvTrip d t pr).price = JSNum.num pr := by
  cases hpt : t.passenger_types with
  | none => simp [normalizeConvTrip, hpt]
  | some l =>
    cases hf : l.find? (fun p => p.type == "general") with
    | none => simp [normalizeConvTrip, hpt, hf]
    | some pt =>
      cases ht : pt.total with
      | none => simp [normalizeConvTrip, hpt, hf, ht]
      | some s =>
        exfalso
        refine h ⟨l, hpt, pt, List.mem_of_find?_eq_some hf, ?_, by simp [ht]⟩
        simpa using List.find?_some hf

/-- C1: for every recognized weekday label (mapped to ordinal `w`) and every
count, `generateFutureDates` logs no error and returns exactly `count` dates,
all falling on that weekday, each on or after the current date, consecutive
dates exactly 7 days apart, and the first date equal to the current date
whenever the current date already falls on that weekday. -/
theorem claim1_generateFutureDates_correct (name : String) (w : Nat)
    (hname : dayNameMapping name = some w) (count today : Nat) :
    (generateFutureDates name count today).errorLogged = false ∧
    (generateFutureDates name count today).dates.length = count ∧
    (∀ d ∈ (generateFutureDates name count today).dates, d % 7 = w ∧ today ≤ d) ∧
    (∀ i a b, (generateFutureDates name count today).dates[i]? = some a →
      (generateFutureDates name count today).dates[i + 1]? = some b → b = a + 7) ∧
    (0 < count → today % 7 = w →
      (generateFutureDates name count today).dates[0]? = some today) := by
  have hw : w < 7 := dayNameMapping_lt_seven name w hname
  have hg : generateFutureDates name count today =
      { errorLogged := false,
        dates := collectDates count (today + (w + 7 - today % 7) % 7) } := by
    simp [generateFutureDates, hname]
  rw [hg]
  refine ⟨rfl, collectDates_length _ _, ?_, ?_, ?_⟩
  · intro d hd
    obtain ⟨i, hi, rfl⟩ := (mem_collectDates _ _ _).mp hd
    omega
  · intro i a b ha hb
    rw [collectDates_getElem?] at ha hb
    by_cases h1 : i < count
    · by_cases h2 : i + 1 < count
      · rw [if_pos h1] at ha
        rw [if_pos h2] at hb
        injection ha with ha
        injection hb with hb
        omega
      · rw [if_neg h2] at hb
        exact absurd hb (by simp)
    · rw [if_neg h1] at ha
      exact absurd ha (by simp)
  · intro hc hw0
    rw [collectDates_getElem?, if_pos hc]
    have h0 : (w + 7 - today % 7) % 7 = 0 := by omega
    simp [h0]

/-- Witness for C1 at weekday "Quinta-feira" (ordinal 4), count 2, with the
current day index 9 (a Tuesday). -/
theorem claim1_witness :
    (generateFutureDates "Quinta-feira" 2 9).errorLogged = false ∧
    (generateFutureDates "Quinta-feira" 2 9).dates.length = 2 ∧
    (∀ d ∈ (generateFutureDates "Quinta-feira" 2 9).dates, d % 7 = 4 ∧ 9 ≤ d) ∧
    (∀ i a b, (generateFutureDates "Quinta-feira" 2 9).dates[i]? = some a →
      (generateFutureDates "Quinta-feira" 2 9).dates[i + 1]? = some b → b = a + 7) ∧
    (0 < 2 → 9 % 7 = 4 →
      (generateFutureDates "Quinta-feira" 2 9).dates[0]? = some 9) :=
  claim1_generateFutureDates_correct "Quinta-feira" 4 (by decide) 2 9

/-- C7: for every input string that is not one of the seven recognized weekday
labels, `generateFutureDates` takes the `console.error` branch and returns the
empty date list (an ordinary return, not a thrown exception), for any count. -/
theorem claim7_invalid_weekday (name : String) (h : name ∉ weekdayLabels)
    (count today : Nat) :
    generateFutureDates name count today = { errorLogged := true, dates := [] } := by
  simp [generateFutureDates, dayNameMapping_eq_none name h]

/-- Witness for C7 at the unrecognized label "Monday". -/
theorem claim7_witness :
    generateFutureDates "Monday" 4 9 = { errorLogged := true, dates := [] } :=
  claim7_invalid_weekday "Monday" (by decide) 4 9

/-- C8: for a null/undefined input, a non-object input, or an object without a
`trips` array, `processAndFilterTrips` returns the empty list through a
`console.warn` branch — no exception is raised. -/
theorem claim8_malformed_payload (d : Option String) :
    processAndFilterTrips JSInput.nullish = ProcOutcome.warned [] ∧
    processAndFilterTrips JSInput.nonObject = ProcOutcome.warned [] ∧
    processAndFilterTrips (JSInput.obj d none) = ProcOutcome.warned [] :=
  ⟨rfl, rfl, rfl⟩

/-- C5: the normalizer's output is unchanged when every non-`CONVENCIONAL`
trip is dropped from the payload, and every canonical trip in a successful
output carries service type "CONVENCIONAL" — so every output record
originates from a `CONVENCIONAL` trip. -/
theorem claim5_nonConventional_dropped (d : Option String) (ts : List RawTrip) :
    processAndFilterTrips (JSInput.obj d (some ts)) =
      processAndFilterTrips
        (JSInput.obj d (some (ts.filter (fun t => t.service == "CONVENCIONAL")))) ∧
    ∀ out, processAndFilterTrips (JSInput.obj d (some ts)) = ProcOutcome.ok out →
      ∀ c ∈ out, c.serviceType = "CONVENCIONAL" := by
  constructor
  · simp [processAndFilterTrips, processTripsList_filter]
  · intro out hout c hc
    have h := processAndFilterTrips_ok d ts out hout
    exact convCanonicals_serviceType d ts c (h ▸ hc)

/-- Witness for C5 on a payload holding one CONVENCIONAL and one EXECUTIVO
trip. -/
theorem claim5_witness :
    (normalizeConvTrip (some "2025-01-02") exGeneralTrip 80).serviceType =
      "CONVENCIONAL" :=
  (claim5_nonConventional_dropped (some "2025-01-02")
      [exGeneralTrip, exExpressTrip]).2
    [normalizeConvTrip (some "2025-01-02") exGeneralTrip 80] (by decide)
    (normalizeConvTrip (some "2025-01-02") exGeneralTrip 80) (by decide)

/-- C2: for any successfully normalized payload and any CONVENCIONAL trip in
it, the resulting canonical trip (an element of the output) has a free-pass
sub-record exactly when the trip has a `passenger_types` entry of type
"free_pass" whose total parses to exactly 0.0, and any included free-pass
sub-record has price 0.0. -/
theorem claim2_freePass_rule (d : Option String) (ts : List RawTrip)
    (out : List CanonicalTrip)
    (hout : processAndFilterTrips (JSInput.obj d (some ts)) = ProcOutcome.ok out)
    (t : RawTrip) (ht : t ∈ ts) (hs : t.service = "CONVENCIONAL")
    (pr : ℚ) (hp : t.pricing = some pr) :
    normalizeConvTrip d t pr ∈ out ∧
    ((normalizeConvTrip d t pr).freePassInfo.isSome ↔
      ∃ l, t.passenger_types = some l ∧
        ∃ pt ∈ l, pt.type = "free_pass" ∧ jsParseFloat pt.total = JSNum.num 0) ∧
    ∀ info, (normalizeConvTrip d t pr).freePassInfo = some info →
      info.price = JSNum.num 0 := by
  refine ⟨?_, freePassInfo_isSome_iff d t pr,
    fun info h => freePassInfo_price d t pr info h⟩
  rw [processAndFilterTrips_ok d ts out hout]
  exact mem_convCanonicals_of d t pr ts ht hs hp

/-- Witness for C2: a `{type:"free_pass", total:"0.00"}` entry yields a
free-pass sub-record. -/
theorem claim2_witness :
    (normalizeConvTrip (some "2025-01-02") exFreeTrip 80).freePassInfo.isSome :=
  (claim2_freePass_rule (some "2025-01-02") [exFreeTrip]
      [normalizeConvTrip (some "2025-01-02") exFreeTrip 80] (by decide)
      exFreeTrip (by decide) (by decide) 80 (by decide)).2.1.mpr
    ⟨[⟨"free_pass", some "0.00", 5⟩], by decide,
      ⟨"free_pass", some "0.00", 5⟩, by decide, by decide, by decide⟩

/-- Counterexample to C3 as stated: a CONVENCIONAL trip with a
`{type:"free_pass", total:"12.50"}` entry — the entry of the corresponding
type exists, yet the canonical trip the normalizer produces for it has no
free-pass sub-record. -/
theorem claim3_counterexample :
    exNonZeroFreeTrip.passenger_types =
      some [⟨"free_pass", some "12.50", 5⟩] ∧
    (∃ pt ∈ [(⟨"free_pass", some "12.50", 5⟩ : PassengerType)],
      pt.type = "free_pass") ∧
    processAndFilterTrips (JSInput.obj (some "2025-01-02") (some [exNonZeroFreeTrip])) =
      ProcOutcome.ok [normalizeConvTrip (some "2025-01-02") exNonZeroFreeTrip 80] ∧
    (normalizeConvTrip (some "2025-01-02") exNonZeroFreeTrip 80).freePassInfo =
      none := by
  refine ⟨by decide, ⟨⟨"free_pass", some "12.50", 5⟩, by decide, by decide⟩,
    by decide, by decide⟩

/-- C3 (amended): in a successfully normalized payload, each youth-discount
sub-record (`disadvantaged_youth`, `disadvantaged_youth_half`) is present in a
CONVENCIONAL trip's canonical record exactly when an entry of the
corresponding type exists; the free-pass sub-record additionally requires the
entry's total to parse to exactly 0.0. -/
theorem claim3_discount_presence_amended (d : Option String) (ts : List RawTrip)
    (out : List CanonicalTrip)
    (hout : processAndFilterTrips (JSInput.obj d (some ts)) = ProcOutcome.ok out)
    (t : RawTrip) (ht : t ∈ ts) (hs : t.service = "CONVENCIONAL")
    (pr : ℚ) (hp : t.pricing = some pr) :
    normalizeConvTrip d t pr ∈ out ∧
    ((normalizeConvTrip d t pr).disadvantagedYouthInfo.isSome ↔
      ∃ l, t.passenger_types = some l ∧
        ∃ pt ∈ l, pt.type = "disadvantaged_youth") ∧
    ((normalizeConvTrip d t pr).disadvantagedYouthHalfInfo.isSome ↔
      ∃ l, t.passenger_types = some l ∧
        ∃ pt ∈ l, pt.type = "disadvantaged_youth_half") ∧
    ((normalizeConvTrip d t pr).freePassInfo.isSome ↔
      ∃ l, t.passenger_types = some l ∧
        ∃ pt ∈ l, pt.type = "free_pass" ∧ jsParseFloat pt.total = JSNum.num 0) := by
  refine ⟨?_, disadvantagedYouthInfo_isSome_iff d t pr,
    disadvantagedYouthHalfInfo_isSome_iff d t pr, freePassInfo_isSome_iff d t pr⟩
  rw [processAndFilterTrips_ok d ts out hout]
  exact mem_convCanonicals_of d t pr ts ht hs hp

/-- Witness for the amended C3 on a trip carrying both youth tiers. -/
theorem claim3_witness :
    (normalizeConvTrip (some "2025-01-02") exYouthTrip 80).disadvantagedYouthInfo.isSome ∧
    (normalizeConvTrip (some "2025-01-02") exYouthTrip 80).disadvantagedYouthHalfInfo.isSome :=
  ⟨(claim3_discount_presence_amended (some "2025-01-02") [exYouthTrip]
      [normalizeConvTrip (some "2025-01-02") exYouthTrip 80] (by decide)
      exYouthTrip (by decide) (by decide) 80 (by decide)).2.1.mpr
    ⟨[⟨"disadvantaged_youth", some "0.00", 2⟩,
      ⟨"disadvantaged_youth_half", some "40.00", 3⟩], by decide,
      ⟨"disadvantaged_youth", some "0.00", 2⟩, by decide, by decide⟩,
   (claim3_discount_presence_amended (some "2025-01-02") [exYouthTrip]
      [normalizeConvTrip (some "2025-01-02") exYouthTrip 80] (by decide)
      exYouthTrip (by decide) (by decide) 80 (by decide)).2.2.1.mpr
    ⟨[⟨"disadvantaged_youth", some "0.00", 2⟩,
      ⟨"disadvantaged_youth_half", some "40.00", 3⟩], by decide,
      ⟨"disadvantaged_youth_half", some "40.00", 3⟩, by decide, by decide⟩⟩

/-- C6: for a CONVENCIONAL trip in a successfully normalized payload, the
canonical price is the parsed total of the trip's "general" passenger-type
entry (the one `find` selects) when that entry has a defined total, and is the
trip's `pricing.total` when no "general" entry with a defined total is found. -/
theorem claim6_general_price_rule (d : Option String) (ts : List RawTrip)
    (out : List CanonicalTrip)
    (hout : processAndFilterTrips (JSInput.obj d (some ts)) = ProcOutcome.ok out)
    (t : RawTrip) (ht : t ∈ ts) (hs : t.service = "CONVENCIONAL")
    (pr : ℚ) (hp : t.pricing = some pr) :
    normalizeConvTrip d t pr ∈ out ∧
    (∀ l pt s, t.passenger_types = some l →
      l.find? (fun p => p.type == "general") = some pt → pt.total = some s →
      (normalizeConvTrip d t pr).price = jsParseFloat (some s)) ∧
    ((¬ ∃ l, t.passenger_types = some l ∧
        ∃ pt ∈ l, pt.type = "general" ∧ pt.total ≠ none) →
      (normalizeConvTrip d t pr).price = JSNum.num pr) := by
  refine ⟨?_,
    fun l pt s hl hf hts => price_eq_general d t pr l pt s hl hf hts,
    fun h => price_eq_pricing d t pr h⟩
  rw [processAndFilterTrips_ok d ts out hout]
  exact mem_convCanonicals_of d t pr ts ht hs hp

/-- Witness for C6: a "general" entry totalling "75.00" overrides the raw
pricing total of 80. -/
theorem claim6_witness :
    (normalizeConvTrip (some "2025-01-02") exGeneralTrip 80).price =
      jsParseFloat (some "75.00") :=
  (claim6_general_price_rule (some "2025-01-02") [exGeneralTrip]
      [normalizeConvTrip (some "2025-01-02") exGeneralTrip 80] (by decide)
      exGeneralTrip (by decide) (by decide) 80 (by decide)).2.1
    [⟨"general", some "75.00", 10⟩] ⟨"general", some "75.00", 10⟩ "75.00"
    (by decide) (by decide) (by decide)

/-- C9: `processAndFilterTrips` can only raise a TypeError when the trips
array holds a CONVENCIONAL trip without a `pricing` object (so it is total
under that precondition), and a concrete payload with such a trip does raise
one instead of returning a sequence. -/
theorem claim9_pricing_totality :
    (∀ input : JSInput, processAndFilterTrips input = ProcOutcome.typeError →
      ∃ d ts, input = JSInput.obj d (some ts) ∧
        ∃ t ∈ ts, t.service = "CONVENCIONAL" ∧ t.pricing = none) ∧
    processAndFilterTrips (JSInput.obj (some "2025-01-02") (some [exNoPricingTrip])) =
      ProcOutcome.typeError := by
  constructor
  · intro input h
    cases input with
    | nullish => simp [processAndFilterTrips] at h
    | nonObject => simp [processAndFilterTrips] at h
    | obj d trips =>
      cases trips with
      | none => simp [processAndFilterTrips] at h
      | some ts =>
        refine ⟨d, ts, rfl, ?_⟩
        cases hrec : processTripsList d ts with
        | ok o => simp [processAndFilterTrips, hrec] at h
        | error e =>
          cases e
          exact processTripsList_error d ts hrec
  · decide

/-- Witness for C9 at the concrete pricing-less payload. -/
theorem claim9_witness :
    ∃ d ts, JSInput.obj (some "2025-01-02") (some [exNoPricingTrip]) =
        JSInput.obj d (some ts) ∧
      ∃ t ∈ ts, t.service = "CONVENCIONAL" ∧ t.pricing = none :=
  claim9_pricing_totality.1
    (JSInput.obj (some "2025-01-02") (some [exNoPricingTrip])) (by decide)

/-- C10: a CONVENCIONAL trip whose `passenger_types` is missing or not an
array still yields a canonical trip in the output, priced at `pricing.total`,
with all three discount sub-records null. -/
theorem claim10_missing_passenger_types (d : Option String) (ts : List RawTrip)
    (out : List CanonicalTrip)
    (hout : processAndFilterTrips (JSInput.obj d (some ts)) = ProcOutcome.ok out)
    (t : RawTrip) (ht : t ∈ ts) (hs : t.service = "CONVENCIONAL")
    (pr : ℚ) (hp : t.pricing = some pr) (hnopt : t.passenger_types = none) :
    normalizeConvTrip d t pr ∈ out ∧
    (normalizeConvTrip d t pr).price = JSNum.num pr ∧
    (normalizeConvTrip d t pr).freePassInfo = none ∧
    (normalizeConvTrip d t pr).disadvantagedYouthInfo = none ∧
    (normalizeConvTrip d t pr).disadvantagedYouthHalfInfo = none := by
  refine ⟨?_, by simp [normalizeConvTrip, hnopt], by simp [normalizeConvTrip, hnopt],
    by simp [normalizeConvTrip, hnopt], by simp [normalizeConvTrip, hnopt]⟩
  rw [processAndFilterTrips_ok d ts out hout]
  exact mem_convCanonicals_of d t pr ts ht hs hp

/-- Witness for C10 at the concrete tier-less CONVENCIONAL trip. -/
theorem claim10_witness :
    normalizeConvTrip (some "2025-01-02") exNoTiersTrip 80 ∈
      [normalizeConvTrip (some "2025-01-02") exNoTiersTrip 80] ∧
    (normalizeConvTrip (some "2025-01-02") exNoTiersTrip 80).price = JSNum.num 80 ∧
    (normalizeConvTrip (some "2025-01-02") exNoTiersTrip 80).freePassInfo = none ∧
    (normalizeConvTrip (some "2025-01-02") exNoTiersTrip 80).disadvantagedYouthInfo = none ∧
    (normalizeConvTrip (some "2025-01-02") exNoTiersTrip 80).disadvantagedYouthHalfInfo = none :=
  claim10_missing_passenger_types (some "2025-01-02") [exNoTiersTrip]
    [normalizeConvTrip (some "2025-01-02") exNoTiersTrip 80] (by decide)
    exNoTiersTrip (by decide) (by decide) 80 (by decide) (by decide)

/-- C4 (code behavior at the claim's inputs): the prompt callback rejects
non-numeric input and resolves cleanly on "0", but on a numeric input outside
0..numOptions (e.g. "5" or "-1" with 4 options) it neither resolves nor
rejects — the returned promise never settles, contradicting the claim that
such input is reported as an error. -/
theorem claim4_prompt_out_of_range_unsettled :
    promptDecision 4 "5" = PromptOutcome.unsettled ∧
    promptDecision 4 "-1" = PromptOutcome.unsettled ∧
    promptDecision 4 "abc" = PromptOutcome.rejected ∧
    promptDecision 4 "0" = PromptOutcome.exitClean ∧
    promptDecision 4 "2" = PromptOutcome.selected 1 := by
  decide
